import Mathlib

/-!
Shallow embedding of the Autonomous Research Agent workflow
(src/agent.py, src/config.py).

The agent is a LangGraph state machine over a shared `AgentState`:
`generate_queries → search_sections → reflect → (route) → write_report`.
External collaborators (the DeepSeek text-generation model and the Tavily
web-search tool) are modelled as explicit parameters of each step: an LLM
reply is its raw text plus the outcome of the code's fence-stripping +
`json.loads` + `dict.get` parsing pipeline, and the web-search tool's
behaviour at each query index is a `QueryOutcome` that may also raise.
-/

namespace ResearchAgent

/-- Configuration constant `MAX_ITERATIONS` from src/config.py (line 23). -/
def MAX_ITERATIONS : Nat := 10

/-- A chat message (LangChain `BaseMessage`): role tag plus content. -/
structure Msg where
  role : String
  content : String
deriving Repr, DecidableEq

/-- One record returned by the web-search collaborator.  Per the Tavily
interface each hit carries `url`, `title` and `content` keys, which is the
shape `search_sections` reads with `result.get(key, "")`. -/
structure SearchHit where
  url : String
  title : String
  content : String
deriving Repr, DecidableEq

/-- One entry of the state's `sources` list, as built at agent.py:153-157:
`{"url": ..., "title": ..., "content": content[:500]}`. -/
structure Source where
  url : String
  title : String
  content : String
deriving Repr, DecidableEq

/-- One entry of `research_results[section]`, as built at agent.py:184-188:
`{"query": ..., "summary": ..., "raw_results": search_results[:3]}`. -/
structure ResearchResult where
  query : String
  summary : String
  raw_results : List SearchHit
deriving Repr, DecidableEq

/-- The `AgentState` TypedDict (agent.py:12-46).  `research_results` and
`report_sections` are Python dicts keyed by strings; Python dicts preserve
insertion order, so they are modelled as association lists.  JSON numbers
(the reflector's score) are modelled as rationals. -/
structure AgentState where
  messages : List Msg
  research_query : String
  research_scope : Option String
  sections : List String
  current_section : Option String
  research_results : List (String × List ResearchResult)
  search_queries : List String
  report_draft : String
  report_sections : List (String × String)
  reflection_feedback : Option String
  iteration_count : Nat
  research_complete : Bool
  sources : List Source
  confidence_score : Option ℚ
deriving Repr, DecidableEq

/-- Outcome of the query planner's parsing pipeline (agent.py:108-121)
applied to the model's reply: either `json.loads` succeeded on a JSON
object — whose `"queries"` and `"sections"` keys may each be present or
absent (`none`), matching `parsed.get(key, [])` — or it raised
`JSONDecodeError`. -/
structure PlannerParse where
  queries : Option (List String)
  sections : Option (List String)
deriving Repr, DecidableEq

inductive PlannerOutcome where
  | parsed (p : PlannerParse)
  | parseFail
deriving Repr, DecidableEq

/-- A text-generation reply to the query planner: the raw content (what is
appended to `messages`) plus the parse outcome of that content. -/
structure PlannerReply where
  content : String
  outcome : PlannerOutcome
deriving Repr, DecidableEq

/-- Step `generate_queries` (agent.py:74-128).  If `sections` is already
non-empty the step returns the state unchanged without invoking the model.
Otherwise it invokes the model once; on parse success it takes
`parsed.get("queries", [])` and `parsed.get("sections", [])`; on
`JSONDecodeError` it falls back to `[query]` and
`["Overview", "Details", "Conclusion"]`.  The reply object (only) is
appended to `messages`. -/
def generate_queries (state : AgentState) (reply : PlannerReply) : AgentState :=
  if state.sections ≠ [] then state
  else
    let qs : List String × List String :=
      match reply.outcome with
      | .parsed p => (p.queries.getD [], p.sections.getD [])
      | .parseFail => ([state.research_query], ["Overview", "Details", "Conclusion"])
    { state with
      search_queries := qs.1
      sections := qs.2
      messages := state.messages ++ [⟨"ai", reply.content⟩] }

/-- Outcome of the reflector's parsing pipeline (agent.py:245-261): a JSON
object whose four keys may each be present or absent (matching
`parsed.get(key, default)`), or a `JSONDecodeError`. -/
structure ReflectParse where
  score : Option ℚ
  feedback : Option String
  next_actions : Option (List String)
  is_complete : Option Bool
deriving Repr, DecidableEq

inductive ReflectOutcome where
  | parsed (p : ReflectParse)
  | parseFail
deriving Repr, DecidableEq

structure ReflectReply where
  content : String
  outcome : ReflectOutcome
deriving Repr, DecidableEq

/-- Step `reflect` (agent.py:197-269).  On parse success:
`score = parsed.get("score", 5)`,
`is_complete = parsed.get("is_complete", score >= 8)`.
On parse failure: `score = 5`, `feedback = "Unable to parse reflection"`,
`is_complete = iteration >= MAX_ITERATIONS`.  In both cases the step merges
`confidence_score = score / 10`,
`research_complete = is_complete or iteration >= MAX_ITERATIONS`, and
appends the reply to `messages`.  `next_actions` is parsed but unused. -/
def reflect (state : AgentState) (reply : ReflectReply) : AgentState :=
  let iteration := state.iteration_count
  match reply.outcome with
  | .parsed p =>
      let score := p.score.getD 5
      let feedback := p.feedback.getD "No feedback provided"
      let is_complete := p.is_complete.getD (decide (score ≥ 8))
      { state with
        reflection_feedback := some feedback
        confidence_score := some (score / 10)
        research_complete := is_complete || decide (iteration ≥ MAX_ITERATIONS)
        messages := state.messages ++ [⟨"ai", reply.content⟩] }
  | .parseFail =>
      let score : ℚ := 5
      let feedback := "Unable to parse reflection"
      let is_complete := decide (iteration ≥ MAX_ITERATIONS)
      { state with
        reflection_feedback := some feedback
        confidence_score := some (score / 10)
        research_complete := is_complete || decide (iteration ≥ MAX_ITERATIONS)
        messages := state.messages ++ [⟨"ai", reply.content⟩] }

/-- Behaviour of the two collaborators at one query index of the
`search_sections` per-query loop: the search succeeds with a list of hits
and the subsequent summarization model call returns `summary`; or the
search call raises; or the search succeeds but the summarization call
raises. -/
inductive QueryOutcome where
  | ok (hits : List SearchHit) (summary : String)
  | searchRaise
  | summarizeRaise (hits : List SearchHit)
deriving Repr, DecidableEq

/-- Owning-section resolution,
`sections[i] if i < len(sections) else f"Section {i+1}"` (agent.py:145). -/
def sectionLabel (sections : List String) (i : Nat) : String :=
  match sections.get? i with
  | some s => s
  | none => "Section " ++ toString (i + 1)

/-- Python string slicing `s[:n]`: the first `n` characters of `s`. -/
def strTake (s : String) (n : Nat) : String :=
  ⟨s.data.take n⟩

/-- The source record appended for one search hit (agent.py:153-157):
content truncated to its first 500 characters (`content[:500]`). -/
def hitToSource (h : SearchHit) : Source :=
  ⟨h.url, h.title, strTake h.content 500⟩

/-- Dict update `research_results[section].append(entry)`, creating
`research_results[section] = []` first when absent (agent.py:181-188).
Python dicts preserve insertion order, so a fresh section is appended at
the end of the association list. -/
def appendResult (m : List (String × List ResearchResult)) (k : String)
    (v : ResearchResult) : List (String × List ResearchResult) :=
  if m.any (fun kv => kv.1 = k) then
    m.map (fun kv => if kv.1 = k then (kv.1, kv.2 ++ [v]) else kv)
  else
    m ++ [(k, [v])]

/-- The per-query loop of `search_sections` (agent.py:144-188), threading
the `sources` list and the `research_results` dict, which the Python code
mutates in place (`sources.append`, `research_results[section].append` on
the very objects held by the state).  A collaborator raise aborts the loop;
the `error` value carries the lists as already mutated at that point, i.e.
what the caller can still observe through the state's aliased list/dict
objects.  Within one query the order is: search, append all hits to
`sources`, then summarize, then append to `research_results[section]`. -/
def searchLoop (env : Nat → QueryOutcome) (sections : List String) :
    List String → Nat → List Source → List (String × List ResearchResult) →
    Except (List Source × List (String × List ResearchResult))
      (List Source × List (String × List ResearchResult))
  | [], _, sources, rr => .ok (sources, rr)
  | q :: rest, i, sources, rr =>
    match env i with
    | .searchRaise => .error (sources, rr)
    | .summarizeRaise hits => .error (sources ++ hits.map hitToSource, rr)
    | .ok hits summary =>
        searchLoop env sections rest (i + 1) (sources ++ hits.map hitToSource)
          (appendResult rr (sectionLabel sections i) ⟨q, summary, hits.take 3⟩)

/-- Step `search_sections` (agent.py:131-194).  Empty `search_queries` is a
no-op.  Otherwise the per-query loop runs; on success the step merges the
grown `sources` and `research_results` and `iteration_count + 1`.  If a
collaborator call raises mid-loop the step never reaches its return
statement: the `error` value is the state as left visible to the caller —
`sources` and `research_results` keep the in-place appends already made,
while `iteration_count` and `messages` are untouched (they are only set in
the return dict).  The summarization model replies are never appended to
`messages` (the step's return dict has no `"messages"` key). -/
def search_sections (state : AgentState) (env : Nat → QueryOutcome) :
    Except AgentState AgentState :=
  if state.search_queries = [] then .ok state
  else
    match searchLoop env state.sections state.search_queries 0
        state.sources state.research_results with
    | .error (sources, rr) =>
        .error { state with sources := sources, research_results := rr }
    | .ok (sources, rr) =>
        .ok { state with
          sources := sources
          research_results := rr
          iteration_count := state.iteration_count + 1 }

/-- One numbered source line of the report's Sources block
(agent.py:319): `f"{i}. [{title}]({url})\n"`. -/
def sourceLine (i : Nat) (s : Source) : String :=
  toString i ++ ". [" ++ s.title ++ "](" ++ s.url ++ ")\n"

/-- The Sources block appended by `write_report` when `sources` is
non-empty (agent.py:316-319): a heading then the first 10 sources,
numbered from 1 in insertion order. -/
def sourcesBlock (sources : List Source) : String :=
  "\n\n## Sources\n\n" ++
    String.join ((sources.take 10).enum.map fun p => sourceLine (p.1 + 1) p.2)

/-- Step `write_report` (agent.py:272-326).  `reply` is the report model's raw
reply content; the step sets `report_draft` to that content plus the
Sources block (only when `sources` is non-empty), sets
`research_complete = True`, and appends the reply to `messages`. -/
def write_report (state : AgentState) (reply : String) : AgentState :=
  let report_draft :=
    if state.sources = [] then reply else reply ++ sourcesBlock state.sources
  { state with
    report_draft := report_draft
    research_complete := true
    messages := state.messages ++ [⟨"ai", reply⟩] }

/-- The two targets of the conditional edge out of `reflect`
(agent.py:357-364). -/
inductive Route where
  | search_sections
  | write_report
deriving Repr, DecidableEq

/-- Router `should_continue_after_reflection` (agent.py:335-340): both branches
return `"write_report"` — the loop back to `search_sections` is a declared
edge the router never selects. -/
def should_continue_after_reflection (state : AgentState) : Route :=
  if state.research_complete then .write_report else .write_report

/-- The initial state built by `run_research` (agent.py:384-399). -/
def initialState (query : String) : AgentState :=
  { messages := [⟨"human", query⟩]
    research_query := query
    research_scope := none
    sections := []
    current_section := none
    research_results := []
    search_queries := []
    report_draft := ""
    report_sections := []
    reflection_feedback := none
    iteration_count := 0
    research_complete := false
    sources := []
    confidence_score := none }

/-- The state reaching the `reflect` node in a run of the compiled graph:
entry point `generate_queries`, then the unconditional edge to
`search_sections` (agent.py:352-356).  `error` if a collaborator call
raised during `search_sections`, aborting the run. -/
def stateBeforeReflect (query : String) (planner : PlannerReply)
    (env : Nat → QueryOutcome) : Except AgentState AgentState :=
  search_sections (generate_queries (initialState query) planner) env

/-- The state a step's caller observes, whether the step returned
normally or raised. -/
def resultState : Except AgentState AgentState → AgentState
  | .ok s => s
  | .error s => s

/-- The completeness score `reflect` works with: the parsed `"score"`
value, defaulting to 5 when the key is absent, and the fixed fallback 5 on
parse failure (agent.py:252 and 258). -/
def reflectScore : ReflectOutcome → ℚ
  | .parsed p => p.score.getD 5
  | .parseFail => 5

/-- Modelled from the spec: the Sources block as §4.4 words it — the
first 10 entries of `sources` rendered as numbered title+link pairs,
numbered from 1 in insertion order.  Used to compare `write_report`
against the spec's description. -/
def numberedLines : Nat → List Source → List String
  | _, [] => []
  | i, s :: rest =>
      (toString i ++ ". [" ++ s.title ++ "](" ++ s.url ++ ")\n")
        :: numberedLines (i + 1) rest

/-- Modelled from the spec: heading plus the numbered lines of the first
10 sources. -/
def specSourcesBlock (sources : List Source) : String :=
  "\n\n## Sources\n\n" ++ String.join (numberedLines 1 (sources.take 10))

/-- C1: after any invocation of the Quality Reflector on a state whose
iteration count is at least MAX_ITERATIONS, the resulting state has
research_complete = true, whether or not the reply parsed and whatever the
parsed or fallback score: both branches of `reflect` merge
`is_complete or iteration >= MAX_ITERATIONS`. -/
theorem reflect_forces_completion_at_max
    (state : AgentState) (reply : ReflectReply)
    (h : MAX_ITERATIONS ≤ state.iteration_count) :
    (reflect state reply).research_complete = true := by
  have hd : decide (state.iteration_count ≥ MAX_ITERATIONS) = true := decide_eq_true h
  rcases reply with ⟨content, outcome⟩
  cases outcome with
  | parsed p => simp [reflect, hd]
  | parseFail => simp [reflect, hd]

/-- Witness for C1 at a concrete input: iteration count 10 and an
unparseable reflector reply still end with research_complete = true. -/
theorem reflect_forces_completion_at_max_witness :
    MAX_ITERATIONS ≤
        ({ initialState "X" with iteration_count := 10 } : AgentState).iteration_count ∧
    (reflect { initialState "X" with iteration_count := 10 }
        ⟨"not json", .parseFail⟩).research_complete = true :=
  ⟨by decide,
    reflect_forces_completion_at_max
      { initialState "X" with iteration_count := 10 } ⟨"not json", .parseFail⟩ (by decide)⟩

/-- C2: the post-reflection router selects write_report on every state and
never the loop back to search_sections; in particular in Scenario D
(reflector score 9, is_complete true, iteration count 2) the reflected
state routes to write_report, not back to the Section Researcher. -/
theorem router_always_selects_write_report :
    (∀ state : AgentState,
        should_continue_after_reflection state = Route.write_report) ∧
    (should_continue_after_reflection
        (reflect { initialState "X" with iteration_count := 2 }
          ⟨"r", .parsed ⟨some 9, some "good", some [], some true⟩⟩)
        = Route.write_report ∧
      (reflect { initialState "X" with iteration_count := 2 }
          ⟨"r", .parsed ⟨some 9, some "good", some [], some true⟩⟩).research_complete
        = true) := by
  refine ⟨fun state => ?_, rfl, rfl⟩
  simp [should_continue_after_reflection]

/-- C3 counterexample: a reflector reply whose parsed score is 15 makes
`reflect` set confidence_score to 15/10, which is not ≤ 1: the code
divides by 10 without clamping, so an out-of-range parsed score escapes
the interval [0,1]. -/
theorem reflect_confidence_score_out_of_range :
    (reflect (initialState "X")
        ⟨"r", .parsed ⟨some 15, none, none, none⟩⟩).confidence_score
      = some (15 / 10) ∧
    ¬((15 : ℚ) / 10 ≤ 1) :=
  ⟨rfl, by norm_num⟩

/-- C3 amended: whenever the score `reflect` works with (the parsed score,
the absent-key default 5, or the parse-failure fallback 5) lies in [0,10],
the confidence_score it sets is score/10 and lies in [0,1].  The fallback
and default always satisfy this; an out-of-range parsed score does not. -/
theorem confidence_score_in_unit_interval_of_score_in_range
    (state : AgentState) (reply : ReflectReply)
    (h0 : 0 ≤ reflectScore reply.outcome)
    (h10 : reflectScore reply.outcome ≤ 10) :
    (reflect state reply).confidence_score
        = some (reflectScore reply.outcome / 10) ∧
    0 ≤ reflectScore reply.outcome / 10 ∧
    reflectScore reply.outcome / 10 ≤ 1 := by
  rcases reply with ⟨content, outcome⟩
  cases outcome with
  | parsed p =>
      exact ⟨rfl, div_nonneg h0 (by norm_num),
        (div_le_one (by norm_num)).mpr h10⟩
  | parseFail =>
      exact ⟨rfl, div_nonneg h0 (by norm_num),
        (div_le_one (by norm_num)).mpr h10⟩

/-- Witness for amended C3 at a concrete input: a parsed score of 7 gives
confidence_score 7/10 inside [0,1]. -/
theorem confidence_score_in_unit_interval_witness :
    0 ≤ reflectScore (ReflectOutcome.parsed ⟨some 7, none, none, none⟩) ∧
    reflectScore (ReflectOutcome.parsed ⟨some 7, none, none, none⟩) ≤ 10 ∧
    ((reflect (initialState "X")
          ⟨"r", ReflectOutcome.parsed ⟨some 7, none, none, none⟩⟩).confidence_score
        = some (reflectScore (ReflectOutcome.parsed ⟨some 7, none, none, none⟩) / 10) ∧
      0 ≤ reflectScore (ReflectOutcome.parsed ⟨some 7, none, none, none⟩) / 10 ∧
      reflectScore (ReflectOutcome.parsed ⟨some 7, none, none, none⟩) / 10 ≤ 1) :=
  ⟨by norm_num [reflectScore], by norm_num [reflectScore],
    confidence_score_in_unit_interval_of_score_in_range (initialState "X")
      ⟨"r", ReflectOutcome.parsed ⟨some 7, none, none, none⟩⟩
      (by norm_num [reflectScore]) (by norm_num [reflectScore])⟩

/-- C4, evaluated at the failing input: a reply that parses as a JSON
object with neither key (the reply text is the two-character object
delimiter pair) makes the Query Planner set sections and search_queries
both to the empty list.  `dict.get` with a default never raises KeyError,
so the except-handler's fallback is dead code on this input and the
documented non-emptiness fails. -/
theorem planner_missing_keys_yield_empty_lists :
    (generate_queries (initialState "X")
        ⟨"\x7b\x7d", .parsed ⟨none, none⟩⟩).sections = [] ∧
    (generate_queries (initialState "X")
        ⟨"\x7b\x7d", .parsed ⟨none, none⟩⟩).search_queries = [] :=
  ⟨rfl, rfl⟩

/-- The one search hit of the C5 scenario. -/
def firstHit : SearchHit := ⟨"http://a.example", "A", "alpha body"⟩

/-- State entering the Section Researcher in the C5 scenario: two queries,
two sections, no prior sources or results. -/
def preFailureState : AgentState :=
  { initialState "X" with
    sections := ["S1", "S2"]
    search_queries := ["q1", "q2"] }

/-- Collaborator behaviour of the C5 scenario: query 0's search succeeds
with one hit and its summarization succeeds; query 1's web search
raises. -/
def failingEnv : Nat → QueryOutcome := fun i =>
  if i = 0 then .ok [firstHit] "summary one" else .searchRaise

/-- C5, evaluated at the failing input: when the second query's search
call raises, the step aborts before its return statement, yet the
caller-visible state keeps the first query's in-place appends —
sources and research_results differ from the pre-step state, refuting
the no-partial-merge requirement. -/
theorem failed_step_leaves_visible_appends :
    search_sections preFailureState failingEnv
      = .error { preFailureState with
          sources := [hitToSource firstHit]
          research_results := [("S1", [⟨"q1", "summary one", [firstHit]⟩])] } ∧
    [hitToSource firstHit] ≠ preFailureState.sources :=
  ⟨rfl, by decide⟩

/-- State of the C6 counterexample: one query, one section. -/
def oneQueryState : AgentState :=
  { initialState "X" with sections := ["S1"], search_queries := ["q1"] }

/-- Collaborator behaviour of the C6 counterexample: the search succeeds
with one hit and the summarization model replies "sum". -/
def oneQueryEnv : Nat → QueryOutcome := fun _ => .ok [⟨"u", "T", "c"⟩] "sum"

/-- C6 counterexample: the Section Researcher runs to completion (its
iteration count was incremented) after invoking the summarization model
once, yet the messages field is unchanged — that invocation's input and
output were never appended, so the message log is not complete. -/
theorem search_sections_appends_no_messages :
    (resultState (search_sections oneQueryState oneQueryEnv)).messages
        = oneQueryState.messages ∧
    (resultState (search_sections oneQueryState oneQueryEnv)).iteration_count
        = oneQueryState.iteration_count + 1 ∧
    oneQueryState.search_queries ≠ [] :=
  ⟨rfl, rfl, by decide⟩

/-- C6 amended: the message log is append-only but not complete: the
Query Planner (when it runs), the Quality Reflector and the Report
Synthesizer each append exactly one entry — the model's raw reply, not
the invocation's input — and the Section Researcher appends nothing for
its summarization invocations.  No step truncates or reorders the prior
log (each output log extends the input log on the right). -/
theorem message_log_append_only :
    (∀ (s : AgentState) (r : PlannerReply),
        (generate_queries s r).messages
          = s.messages ++ (if s.sections = [] then [⟨"ai", r.content⟩] else [])) ∧
    (∀ (s : AgentState) (env : Nat → QueryOutcome),
        (resultState (search_sections s env)).messages = s.messages) ∧
    (∀ (s : AgentState) (r : ReflectReply),
        (reflect s r).messages = s.messages ++ [⟨"ai", r.content⟩]) ∧
    (∀ (s : AgentState) (r : String),
        (write_report s r).messages = s.messages ++ [⟨"ai", r⟩]) := by
  refine ⟨fun s r => ?_, fun s env => ?_, fun s r => ?_, fun s r => rfl⟩
  · by_cases h : s.sections = [] <;> simp [generate_queries, h]
  · simp only [search_sections]
    split
    · rfl
    · split <;> rfl
  · rcases r with ⟨content, outcome⟩
    cases outcome <;> rfl

/-- C7 counterexample: on a state whose research_complete is already true,
a reflector reply that parses with is_complete = false and an iteration
count below MAX_ITERATIONS sets research_complete back to false —
`reflect` recomputes the flag without reading its prior value. -/
theorem reflect_can_unset_research_complete :
    (reflect { initialState "X" with research_complete := true }
        ⟨"r", .parsed ⟨some 3, none, none, some false⟩⟩).research_complete = false :=
  rfl

/-- C7 amended: every step except the Quality Reflector preserves or
raises research_complete (the Planner and the Section Researcher leave it
unchanged on success and on failure, the Report Synthesizer sets it true);
the Reflector overwrites the flag ignoring its prior value, but in any run
of the compiled graph the state reaching the Reflector always has
research_complete = false, so no true-to-false transition ever occurs
along a run. -/
theorem research_complete_monotone_along_runs :
    (∀ (s : AgentState) (r : PlannerReply),
        (generate_queries s r).research_complete = s.research_complete) ∧
    (∀ (s : AgentState) (env : Nat → QueryOutcome),
        (resultState (search_sections s env)).research_complete
          = s.research_complete) ∧
    (∀ (s : AgentState) (r : String),
        (write_report s r).research_complete = true) ∧
    (∀ (q : String) (p : PlannerReply) (env : Nat → QueryOutcome),
        (resultState (stateBeforeReflect q p env)).research_complete = false) := by
  have hg : ∀ (s : AgentState) (r : PlannerReply),
      (generate_queries s r).research_complete = s.research_complete := by
    intro s r
    by_cases h : s.sections = [] <;> simp [generate_queries, h]
  have hs : ∀ (s : AgentState) (env : Nat → QueryOutcome),
      (resultState (search_sections s env)).research_complete
        = s.research_complete := by
    intro s env
    simp only [search_sections]
    split
    · rfl
    · split <;> rfl
  refine ⟨hg, hs, fun s r => rfl, fun q p env => ?_⟩
  unfold stateBeforeReflect
  rw [hs, hg]
  rfl

/-- C8 counterexample: invoking the Section Researcher on a state whose
search_queries list is empty returns the state unchanged — iteration
count 3 stays 3 instead of being incremented to 4, so not every
invocation increments it. -/
theorem empty_queries_invocation_does_not_increment :
    search_sections { initialState "X" with iteration_count := 3 }
        (fun _ => .searchRaise)
      = .ok { initialState "X" with iteration_count := 3 } ∧
    (resultState (search_sections { initialState "X" with iteration_count := 3 }
        (fun _ => .searchRaise))).iteration_count = 3 :=
  ⟨rfl, rfl⟩

/-- C8 amended: a Section Researcher invocation with non-empty
search_queries that completes increments iteration_count by exactly one
(once per invocation, not per query); a failed invocation leaves it
unchanged; an invocation with empty search_queries is a no-op; and no
other step of the workflow ever changes (in particular decrements)
iteration_count. -/
theorem iteration_count_discipline :
    (∀ (s : AgentState) (env : Nat → QueryOutcome) (s' : AgentState),
        search_sections s env = .ok s' → s.search_queries ≠ [] →
          s'.iteration_count = s.iteration_count + 1) ∧
    (∀ (s : AgentState) (env : Nat → QueryOutcome) (s' : AgentState),
        search_sections s env = .error s' →
          s'.iteration_count = s.iteration_count) ∧
    (∀ (s : AgentState) (env : Nat → QueryOutcome),
        s.search_queries = [] → search_sections s env = .ok s) ∧
    (∀ (s : AgentState) (r : PlannerReply),
        (generate_queries s r).iteration_count = s.iteration_count) ∧
    (∀ (s : AgentState) (r : ReflectReply),
        (reflect s r).iteration_count = s.iteration_count) ∧
    (∀ (s : AgentState) (r : String),
        (write_report s r).iteration_count = s.iteration_count) := by
  refine ⟨?_, ?_, ?_, ?_, ?_, fun s r => rfl⟩
  · intro s env s' h hne
    simp only [search_sections, if_neg hne] at h
    split at h
    · cases h
    · cases h
      rfl
  · intro s env s' h
    simp only [search_sections] at h
    split at h
    · cases h
    · split at h
      · cases h
        rfl
      · cases h
  · intro s env h
    simp only [search_sections, if_pos h]
  · intro s r
    by_cases h : s.sections = [] <;> simp [generate_queries, h]
  · intro s r
    rcases r with ⟨content, outcome⟩
    cases outcome <;> rfl

/-- State of the C8 witness: one query, one section. -/
def stepOkState : AgentState :=
  { initialState "X" with sections := ["S1"], search_queries := ["q1"] }

/-- Collaborator behaviour of the C8 witness: the search returns no hits
and the summarization replies "sum". -/
def stepOkEnv : Nat → QueryOutcome := fun _ => .ok [] "sum"

/-- Resulting state of the C8 witness invocation. -/
def stepOkResult : AgentState :=
  { stepOkState with
    research_results := [("S1", [⟨"q1", "sum", []⟩])]
    iteration_count := 1 }

/-- Witness for amended C8 at a concrete input: a completing invocation
over one query increments iteration_count from 0 to 1. -/
theorem iteration_count_discipline_witness :
    stepOkResult.iteration_count = stepOkState.iteration_count + 1 :=
  iteration_count_discipline.1 stepOkState stepOkEnv stepOkResult rfl (by decide)

/-- Mapping the numbered-line renderer over an index-enumerated list of
sources agrees with the spec-side recursive renderer started one past the
enumeration offset. -/
theorem enumFrom_map_sourceLine (l : List Source) (c : Nat) :
    (List.enumFrom c l).map (fun p => sourceLine (p.1 + 1) p.2)
      = numberedLines (c + 1) l := by
  induction l generalizing c with
  | nil => rfl
  | cons s rest ih =>
      simp only [List.enumFrom, List.map_cons, numberedLines]
      rw [ih]
      rfl

/-- The numbered-line renderer produces one line per source. -/
theorem numberedLines_length (l : List Source) (c : Nat) :
    (numberedLines c l).length = l.length := by
  induction l generalizing c with
  | nil => rfl
  | cons s rest ih => simp [numberedLines, ih]

/-- The Sources block of the code coincides with the block as the spec
words it. -/
theorem sourcesBlock_eq_specSourcesBlock (l : List Source) :
    sourcesBlock l = specSourcesBlock l := by
  unfold sourcesBlock specSourcesBlock
  rw [show List.enum (l.take 10) = List.enumFrom 0 (l.take 10) from rfl,
    enumFrom_map_sourceLine]

/-- C9: the report contains the appended Sources block iff sources is
non-empty at synthesis time; when present, the block is the spec's
rendering — the first 10 sources, in insertion order, as numbered
title+link pairs — hence it has min(10, number of sources) ≤ 10
entries. -/
theorem report_sources_block_iff_nonempty (s : AgentState) (reply : String) :
    ((write_report s reply).report_draft = reply ↔ s.sources = []) ∧
    (s.sources ≠ [] →
        (write_report s reply).report_draft
          = reply ++ specSourcesBlock s.sources) ∧
    (numberedLines 1 (s.sources.take 10)).length = min 10 s.sources.length ∧
    (numberedLines 1 (s.sources.take 10)).length ≤ 10 := by
  have hlen : (numberedLines 1 (s.sources.take 10)).length
      = min 10 s.sources.length := by
    rw [numberedLines_length, List.length_take]
  have hblock : ∀ l : List Source, l ≠ [] → 0 < (sourcesBlock l).length := by
    intro l _
    unfold sourcesBlock
    rw [String.length_append]
    have h14 : ("\n\n## Sources\n\n" : String).length = 14 := rfl
    omega
  refine ⟨?_, ?_, hlen, by omega⟩
  · constructor
    · intro hdraft
      by_contra hne
      have hd : (write_report s reply).report_draft
          = reply ++ sourcesBlock s.sources := by
        simp [write_report, hne]
      rw [hd] at hdraft
      have := congrArg String.length hdraft
      rw [String.length_append] at this
      have := hblock s.sources hne
      omega
    · intro he
      simp [write_report, he]
  · intro hne
    rw [← sourcesBlock_eq_specSourcesBlock]
    simp [write_report, hne]

/-- State of the C9 witness: exactly one source. -/
def oneSourceState : AgentState :=
  { initialState "X" with sources := [⟨"http://u.example", "T", "c"⟩] }

/-- Witness for C9 at a concrete input: with one source the report is the
model reply followed by the spec's Sources block. -/
theorem report_sources_block_witness :
    oneSourceState.sources ≠ [] ∧
    (write_report oneSourceState "R").report_draft
      = "R" ++ specSourcesBlock oneSourceState.sources :=
  ⟨by decide, (report_sources_block_iff_nonempty oneSourceState "R").2.1 (by decide)⟩

/-- C10: when the reflector's reply parses as a JSON object without the
is_complete key, the step does not take the parse-failure fallback —
feedback is the parsed (or absent-key default) feedback, and completeness
defaults to score >= 8 — so a parseable reply scoring at least 8 sets
research_complete = true regardless of the iteration count. -/
theorem missing_is_complete_defaults_to_score_ge_8
    (s : AgentState) (content : String) (p : ReflectParse)
    (hk : p.is_complete = none) :
    (reflect s ⟨content, .parsed p⟩).research_complete
        = (decide ((8 : ℚ) ≤ p.score.getD 5)
            || decide (MAX_ITERATIONS ≤ s.iteration_count)) ∧
    (reflect s ⟨content, .parsed p⟩).reflection_feedback
        = some (p.feedback.getD "No feedback provided") ∧
    ((8 : ℚ) ≤ p.score.getD 5 →
        (reflect s ⟨content, .parsed p⟩).research_complete = true) := by
  refine ⟨by simp [reflect, hk, ge_iff_le], by simp [reflect], ?_⟩
  intro h8
  have hd : decide ((p.score.getD 5 : ℚ) ≥ 8) = true := decide_eq_true h8
  simp [reflect, hk, hd]

/-- Witness for C10 at a concrete input: score 9, no is_complete key,
iteration count 2 — strictly below MAX_ITERATIONS — still yields
research_complete = true. -/
theorem missing_is_complete_defaults_witness :
    (2 : Nat) < MAX_ITERATIONS ∧
    (reflect { initialState "X" with iteration_count := 2 }
        ⟨"r", .parsed ⟨some 9, none, none, none⟩⟩).research_complete = true :=
  ⟨by decide,
    (missing_is_complete_defaults_to_score_ge_8
        { initialState "X" with iteration_count := 2 } "r"
        ⟨some 9, none, none, none⟩ rfl).2.2 (by norm_num)⟩

end ResearchAgent
